import Mathlib

/-!
Verification development for the invoice-detection pipeline (Google Apps
Script).  The JavaScript sources are shallowly embedded: JSON field values
become the inductive type JVal (JSON numbers cannot be NaN, so no NaN
constructor is needed; absent fields are modelled as null), strings are Lean
strings with JS helpers (truthiness, toLowerCase restricted to ASCII,
includes, trim), and the stateful pieces (rate limiter, run loop) become
explicit state-passing functions.  External services (Gmail, Drive, the AI
endpoint, the spreadsheet) are inputs supplied through environment records.
-/

set_option maxRecDepth 20000

/-- JavaScript value of a monetary field as it appears in the parsed AI
response: null, a (finite) number, or a string.  JSON parsing cannot produce
NaN or undefined, so neither is modelled. -/
inductive JVal where
  | null
  | num (q : ℚ)
  | str (s : String)
deriving DecidableEq, Repr

namespace JVal

/-- JS truthiness of a JVal (0 and the empty string are falsy). -/
def truthy : JVal → Bool
  | .null => false
  | .num q => q != 0
  | .str s => s != ""

end JVal

namespace Js

/-- JS truthiness of a nullable string (null and the empty string are falsy). -/
def truthyS : Option String → Bool
  | none => false
  | some s => s != ""

/-- Whitespace characters recognised when trimming / parsing numbers. -/
def isWs (c : Char) : Bool := c = ' ' || c = '\t' || c = '\n' || c = '\r'

/-- String.prototype.toLowerCase, restricted to ASCII letters (all alias and
keyword comparisons in the source are over ASCII-lowercase lists). -/
def lower (s : String) : String := String.mk (s.toList.map Char.toLower)

/-- Decide whether the first list is an initial segment of the second. -/
def startsWithL : List Char → List Char → Bool
  | [], _ => true
  | _ :: _, [] => false
  | a :: as, b :: bs => a = b && startsWithL as bs

/-- Decide whether the needle occurs somewhere in the haystack. -/
def containsL (need : List Char) : List Char → Bool
  | [] => need.isEmpty
  | c :: t => startsWithL need (c :: t) || containsL need t

/-- String.prototype.includes. -/
def includes (hay need : String) : Bool := containsL need.toList hay.toList

/-- String.prototype.trim (over the modelled whitespace set). -/
def trim (s : String) : String :=
  String.mk (((s.toList.dropWhile isWs).reverse.dropWhile isWs).reverse)

/-- String.prototype.endsWith. -/
def endsWith (hay need : String) : Bool :=
  startsWithL need.toList.reverse hay.toList.reverse

/-- String.prototype.substring(0, n). -/
def substringTo (s : String) (n : ℕ) : String := String.mk (s.toList.take n)

/-- JS a || b for strings (empty string falls through to b). -/
def orS (a b : String) : String := if a != "" then a else b

/-- ASCII digit test. -/
def isDigit (c : Char) : Bool := '0' ≤ c && c ≤ '9'

/-- Numeric value of a list of ASCII digits. -/
def digitsVal (ds : List Char) : ℕ := ds.foldl (fun a c => 10 * a + (c.toNat - 48)) 0

/-- JavaScript parseFloat for the finite decimal syntax
sign digits [. digits] [e sign digits], after skipping leading whitespace;
none models NaN (no valid numeric prefix).  A trailing malformed exponent is
ignored, as in JS (parseFloat("1e") is 1).  The "Infinity" literal is outside
the modelled domain. -/
def parseFloatJS (s : String) : Option ℚ :=
  let cs := s.toList.dropWhile isWs
  let negative : Bool := match cs with
    | '-' :: _ => true
    | _ => false
  let cs1 := match cs with
    | '+' :: r => r
    | '-' :: r => r
    | _ => cs
  let p1 := cs1.span isDigit
  let p2 := match p1.2 with
    | '.' :: r => r.span isDigit
    | _ => ([], p1.2)
  if p1.1.isEmpty && p2.1.isEmpty then none
  else
    let mant : ℕ := digitsVal (p1.1 ++ p2.1)
    let expv : ℤ := match p2.2 with
      | c :: r =>
        if c = 'e' || c = 'E' then
          let esgn : ℤ := match r with
            | '-' :: _ => -1
            | _ => 1
          let r2 := match r with
            | '+' :: rr => rr
            | '-' :: rr => rr
            | _ => r
          let es := (r2.span isDigit).1
          if es.isEmpty then 0 else esgn * (digitsVal es : ℤ)
        else 0
      | [] => 0
    let scale : ℤ := expv - p2.1.length
    let n : ℤ := if negative then -(mant : ℤ) else (mant : ℤ)
    if 0 ≤ scale then some (mkRat (n * ((10 : ℕ) ^ scale.toNat : ℕ)) 1)
    else some (mkRat n ((10 : ℕ) ^ (-scale).toNat))

/-- String.prototype.replace(",", ".") — replaces only the first comma. -/
def replaceFirstCommaL : List Char → List Char
  | [] => []
  | c :: t => if c = ',' then '.' :: t else c :: replaceFirstCommaL t

/-- String.prototype.replace(",", ".") on strings. -/
def replaceComma (s : String) : String := String.mk (replaceFirstCommaL s.toList)

end Js

/-- Extracted invoice record (the parsed AI JSON object).  String fields use
Option String (none = null / absent), monetary fields use JVal since the model
may return them as strings before normalization. -/
structure InvoiceData where
  esFactura : Option Bool := none
  proveedor : Option String := none
  fechaFactura : Option String := none
  numeroFactura : Option String := none
  concepto : Option String := none
  importeSinIVA : JVal := .null
  iva : JVal := .null
  importeTotal : JVal := .null
deriving DecidableEq, Repr

namespace CONFIG

/-- CONFIG.EMPRESAS_EMISORAS (issuing-entity aliases, lowercase). -/
def EMPRESAS_EMISORAS : List String :=
  ["intelectium", "ipronics", "ipronics program", "ipronics programmable",
   "ipronics programmable photonics", "ipronics programmable s.l."]

/-- CONFIG.RATE_LIMIT_CALLS_PER_MINUTE. -/
def RATE_LIMIT_CALLS_PER_MINUTE : ℕ := 60

/-- CONFIG.MAX_THREADS_PER_RUN. -/
def MAX_THREADS_PER_RUN : ℕ := 50

/-- CONFIG.BATCH_SIZE. -/
def BATCH_SIZE : ℕ := 10

/-- CONFIG.MAX_EXECUTION_TIME_MS. -/
def MAX_EXECUTION_TIME_MS : ℤ := 300000

/-- CONFIG.MAX_RATE_LIMITER_WAIT_MS. -/
def MAX_RATE_LIMITER_WAIT_MS : ℤ := 10000

end CONFIG

namespace VertexAI

/-- Numeric normalization of one monetary field (extractInvoiceData,
03_VertexAI.js lines 598-619): a string has its first comma replaced by a
decimal point and is fed to parseFloat; the JS idiom parseFloat(x) || null
maps both NaN and 0 to null.  The subsequent isNaN guard in the source is a
no-op on this value domain (JSON-parsed numbers are never NaN).  Non-string
values pass through unchanged. -/
def normalizeAmount (v : JVal) : JVal :=
  match v with
  | .str s =>
    match Js.parseFloatJS (Js.replaceComma s) with
    | some q => if q = 0 then .null else .num q
    | none => .null
  | x => x

/-- Numeric normalization applied to the three monetary fields of a record. -/
def normalizeRec (d : InvoiceData) : InvoiceData :=
  { d with importeSinIVA := normalizeAmount d.importeSinIVA,
           iva := normalizeAmount d.iva,
           importeTotal := normalizeAmount d.importeTotal }

/-- Marketing keyword list from _isValidInvoice. -/
def marketingKeywords : List String :=
  ["marketing", "publicidad", "promoción", "descuento", "oferta especial",
   "newsletter", "tickets to", "win tickets"]

/-- hasInvoiceNumber local of _isValidInvoice:
numeroFactura is truthy and not blank after trimming. -/
def hasInvoiceNumber (d : InvoiceData) : Bool :=
  Js.truthyS d.numeroFactura && Js.trim (d.numeroFactura.getD "") != ""

/-- One conjunct of hasAnyAmount: the field is not null (or undefined) and
not the number 0 (a string is never strictly equal to 0). -/
def nzAmount (v : JVal) : Bool := v != .null && v != .num 0

/-- hasAnyAmount local of _isValidInvoice. -/
def hasAnyAmount (d : InvoiceData) : Bool :=
  nzAmount d.importeSinIVA || nzAmount d.iva || nzAmount d.importeTotal

/-- Marketing keyword hit on the lowercased concept or provider. -/
def marketingHit (d : InvoiceData) : Bool :=
  let proveedor := Js.lower (d.proveedor.getD "")
  let concepto := Js.lower (d.concepto.getD "")
  marketingKeywords.any (fun kw => Js.includes concepto kw || Js.includes proveedor kw)

/-- Issuing-entity alias hit in a lowercased string. -/
def empresasHit (s : String) : Bool :=
  CONFIG.EMPRESAS_EMISORAS.any (fun e => Js.includes s e)

/-- _isValidInvoice (03_VertexAI.js lines 831-910, v1.6): the multi-rule
validation gate.  The caller guarantees a non-null record. -/
def isValidInvoice (d : InvoiceData) : Bool :=
  if d.esFactura = some false then false
  else
    let proveedor := Js.lower (d.proveedor.getD "")
    let concepto := Js.lower (d.concepto.getD "")
    if empresasHit proveedor then false
    else if empresasHit concepto then false
    else if !Js.truthyS d.proveedor && !Js.truthyS d.numeroFactura then false
    else if !hasInvoiceNumber d && !hasAnyAmount d then false
    else if marketingHit d && !Js.truthyS d.numeroFactura &&
            (d.importeTotal = .null || d.importeTotal = .num 0) then false
    else true

/-- extractInvoiceData, reduced to its data path: the AI call / response
parsing is an input (none models a thrown or failed call); a parsed record is
normalized and then validated, and the function returns null when validation
rejects. -/
def extractInvoiceData (raw : Option InvoiceData) : Option InvoiceData :=
  match raw with
  | none => none
  | some r =>
    if isValidInvoice (normalizeRec r) then some (normalizeRec r) else none

end VertexAI

namespace VertexAI

/-- Lazy pruning performed by the rate limiter on each admission check:
keep exactly the timestamps strictly newer than now - 60000 ms. -/
def pruneCalls (now : ℤ) (calls : List ℤ) : List ℤ :=
  calls.filter (fun t => now - 60000 < t)

/-- canCall (03_VertexAI.js lines 423-428): prune, then admit iff fewer than
maxCalls timestamps remain in the trailing 60-second window. -/
def canCall (maxCalls : ℕ) (now : ℤ) (calls : List ℤ) : Bool :=
  (pruneCalls now calls).length < maxCalls

/-- recordCall: unconditionally append the current timestamp. -/
def recordCall (now : ℤ) (calls : List ℤ) : List ℤ := calls ++ [now]

/-- Result of waitIfNeeded: the final clock, the pruned call window at exit,
the trace of sleeps as (elapsed-at-sleep, sleep-duration) pairs, and whether
the structural recursion bound was exhausted (proved impossible below). -/
structure WaitRes where
  finalNow : ℤ
  finalCalls : List ℤ
  sleeps : List (ℤ × ℤ)
  fuelOut : Bool
deriving DecidableEq, Repr

/-- The actualWaitTime of one waitIfNeeded iteration: the time until the
oldest call leaves the window plus a 1-second buffer, capped by the
remaining wait budget and by the 30-second per-iteration ceiling.  The
pruned window is given as head c and tail cs, its minimum being
Math.min(...calls). -/
def actualWait (maxWait waitStart now c : ℤ) (cs : List ℤ) : ℤ :=
  min (min (max 0 (60000 - (now - cs.foldl min c) + 1000))
    (maxWait - (now - waitStart))) 30000

/-- Prepend one (elapsed-at-sleep, duration) entry to a wait result. -/
def consSleep (e dur : ℤ) (r : WaitRes) : WaitRes :=
  { r with sleeps := (e, dur) :: r.sleeps }

/-- One-loop body of waitIfNeeded (03_VertexAI.js lines 440-496), driven by a
structural recursion bound. Utilities.sleep(d) advances the clock by d plus a
nonnegative overshoot drawn from the stream os (real sleeps may run long).
The loop: prune and test admission; break once the accumulated wait exceeds
maxWait; break if the pruned window is empty while admission is denied;
otherwise sleep actualWait when it is positive (it never exceeds the
30-second ceiling), else break. -/
def waitAux (maxCalls : ℕ) (maxWait waitStart : ℤ) :
    ℕ → ℤ → List ℤ → List ℤ → WaitRes
  | 0, now, calls, _ =>
    { finalNow := now, finalCalls := calls, sleeps := [], fuelOut := true }
  | fuel + 1, now, calls, os =>
    if (pruneCalls now calls).length < maxCalls then
      { finalNow := now, finalCalls := pruneCalls now calls, sleeps := [],
        fuelOut := false }
    else if maxWait < now - waitStart then
      { finalNow := now, finalCalls := pruneCalls now calls, sleeps := [],
        fuelOut := false }
    else
      match pruneCalls now calls with
      | [] =>
        { finalNow := now, finalCalls := pruneCalls now calls, sleeps := [],
          fuelOut := false }
      | c :: cs =>
        if 0 < actualWait maxWait waitStart now c cs then
          consSleep (now - waitStart) (actualWait maxWait waitStart now c cs)
            (waitAux maxCalls maxWait waitStart fuel
              (now + actualWait maxWait waitStart now c cs + max 0 (os.headD 0))
              (pruneCalls now calls) os.tail)
        else
          { finalNow := now, finalCalls := pruneCalls now calls, sleeps := [],
            fuelOut := false }

/-- waitIfNeeded: run the loop from the entry clock with a recursion bound
that is one more than the wait budget in milliseconds (each iteration either
breaks or sleeps at least 1 ms, so this bound is never reached). -/
def waitIfNeeded (maxCalls : ℕ) (maxWait : ℤ) (waitStart : ℤ)
    (calls : List ℤ) (os : List ℤ) : WaitRes :=
  waitAux maxCalls maxWait waitStart (maxWait.toNat + 1) waitStart calls os

end VertexAI

/-- One row of the Facturas sheet as read back by getValues, after the
source's stringification: column A (Proveedor), column C (invoice number) and
column H (file URL). -/
structure SRow where
  provA : String := ""
  numC : String := ""
  urlH : String := ""
deriving DecidableEq, Repr

namespace Sheets05

/-- Local issuing-entity alias list of 05_Sheets.js invoiceExists (note: it
has five entries, one fewer than CONFIG.EMPRESAS_EMISORAS). -/
def empresasEmisoras : List String :=
  ["intelectium", "ipronics", "ipronics program", "ipronics programmable",
   "ipronics programmable photonics"]

/-- Per-row duplicate test inside the scan loop of invoiceExists
(05_Sheets.js lines 170-214). -/
def rowHit (numeroFactura fileUrl : Option String)
    (normalizedProveedor : String) (row : SRow) : Bool :=
  let rowProveedor := Js.trim (Js.lower row.provA)
  let rowNumero := Js.trim row.numC
  let rowFileUrl := row.urlH
  (Js.truthyS numeroFactura && rowNumero != "" &&
    rowNumero = Js.trim (numeroFactura.getD "")) ||
  (normalizedProveedor != "" && Js.truthyS numeroFactura &&
    rowProveedor = normalizedProveedor &&
    rowNumero = Js.trim (numeroFactura.getD "")) ||
  empresasEmisoras.any (fun e =>
    Js.includes normalizedProveedor e || Js.includes rowProveedor e) ||
  (Js.truthyS fileUrl && rowFileUrl != "" && rowFileUrl = fileUrl.getD "")

/-- invoiceExists (05_Sheets.js lines 141-224, full-scan version).  The rows
argument holds the data rows of the sheet (the source loop starts below the
header row); reading failures are not modelled here because claim C9 targets
the cached variant in Part004. -/
def invoiceExists (numeroFactura proveedor fileUrl : Option String)
    (rows : List SRow) : Bool :=
  if !Js.truthyS numeroFactura && !Js.truthyS proveedor then false
  else
    let normalizedProveedor := Js.trim (Js.lower (proveedor.getD ""))
    if empresasEmisoras.any (fun e => Js.includes normalizedProveedor e) then true
    else rows.any (rowHit numeroFactura fileUrl normalizedProveedor)

/-- The amount written into a numeric ledger column by registerInvoice
(05_Sheets.js lines 94-96): the JS idiom value || 0 writes 0 for every falsy
value (null, 0, empty string). -/
def cellOr0 (v : JVal) : JVal := if v.truthy then v else .num 0

/-- The rowData array built by registerInvoice (05_Sheets.js lines 89-98).
Date formatting goes through external services, so the formatted date string
is a parameter. -/
def rowData (d : InvoiceData) (fechaStr : String) (fileUrl : String) : List JVal :=
  [.str (d.proveedor.getD ""),
   .str fechaStr,
   .str (d.numeroFactura.getD ""),
   .str (d.concepto.getD ""),
   cellOr0 d.importeSinIVA,
   cellOr0 d.iva,
   cellOr0 d.importeTotal,
   .str (Js.orS fileUrl "")]

end Sheets05

namespace Part004

/-- Per-row test of the cached invoiceExists scan loop
(src/unnamed/part_004 lines 192-228). -/
def rowHit (url : Option String) (normalizedProveedor normalizedNumero : String)
    (row : SRow) : Bool :=
  let rowProveedor := Js.trim (Js.lower row.provA)
  let rowNumero := Js.trim row.numC
  let rowFileUrl := row.urlH
  (normalizedProveedor != "" && normalizedNumero != "" &&
    rowProveedor = normalizedProveedor && rowNumero = normalizedNumero) ||
  CONFIG.EMPRESAS_EMISORAS.any (fun e =>
    Js.includes normalizedProveedor e || Js.includes rowProveedor e) ||
  (Js.truthyS url && rowFileUrl != "" && rowFileUrl = url.getD "")

/-- invoiceExists (src/unnamed/part_004 lines 141-239, cached last-200-rows
version).  The sheet argument is the outcome of reading the spreadsheet: an
error models any exception thrown while accessing it, and the whole body is
wrapped in the source's try/catch which returns false on error.  The rows
list holds all sheet rows in order, the header row included (getRange uses
absolute row numbers, so a short sheet's window includes the header).
The function is total: it never raises to its caller. -/
def invoiceExists (numeroFactura proveedor fileUrl : Option String)
    (sheet : Except Unit (List SRow)) : Bool :=
  if !Js.truthyS numeroFactura && !Js.truthyS proveedor then false
  else
    match sheet with
    | .error _ => false
    | .ok rows =>
      let lastRow := rows.length
      let numRows := min 200 lastRow
      if numRows = 0 then false
      else
        let window := (rows.drop (lastRow - numRows)).take numRows
        let invoiceNumbersFlat :=
          (window.map (fun r => Js.trim r.numC)).filter (fun n => n != "")
        let normalizedProveedor := Js.trim (Js.lower (proveedor.getD ""))
        let normalizedNumero :=
          if Js.truthyS numeroFactura then Js.trim (numeroFactura.getD "") else ""
        if CONFIG.EMPRESAS_EMISORAS.any (fun e => Js.includes normalizedProveedor e)
        then true
        else if normalizedNumero != "" && invoiceNumbersFlat.contains normalizedNumero
        then true
        else if (normalizedProveedor != "" && normalizedNumero != "") ||
                Js.truthyS fileUrl then
          window.any (rowHit fileUrl normalizedProveedor normalizedNumero)
        else false

end Part004

/-- An email attachment descriptor: name and content type. -/
structure Att where
  name : String
  contentType : String
deriving DecidableEq, Repr

/-- A candidate email message as assembled by GmailManager.processThread:
subject, plain body, html body and attachment descriptors. -/
structure Msg where
  subject : String := ""
  body : String := ""
  htmlBody : String := ""
  attachments : List Att := []
deriving DecidableEq, Repr

/-- External-world inputs of one processMessage run: the parsed AI response
(none = the AI call threw or its output failed to parse), the Drive URL the
saved attachment would get, the Drive URL a generated body-PDF would get, and
the ledger data rows used by the duplicate check. -/
structure Env where
  aiRaw : Option InvoiceData := none
  fileUrlAtt : String := ""
  fileUrlPdf : String := ""
  sheet : List SRow := []
deriving DecidableEq, Repr

namespace Main01

/-- Issuing-entity alias test on an already-lowercased string
(the pattern CONFIG.EMPRESAS_EMISORAS.some(e => s.includes(e))). -/
def empresasHitStr (s : String) : Bool :=
  CONFIG.EMPRESAS_EMISORAS.any (fun e => Js.includes s e)

/-- The non-invoice regular expressions of processMessage (01_Main.js lines
448-460), each decomposed into its literal segments: pattern A.*B matches a
string iff A and then B occur, in order, within one line (the JS dot does not
match line terminators).  All patterns are tested case-insensitively against
already-lowercased text, so segments are stored lowercase. -/
def nonInvoicePatterns : List (List String) :=
  [["entregado", "productos"],
   ["pedido", "enviado"],
   ["suscripción", "camino"],
   ["último correo"],
   ["your", "order", "shipped"],
   ["tracking", "number"],
   ["envío realizado"],
   ["tu pedido", "se ha"],
   ["n.º de pedido"],
   ["número de pedido"],
   ["order", "number"]]

/-- Drop everything up to and including the first occurrence of the needle;
none when the needle does not occur. -/
def findAfter (need : List Char) : List Char → Option (List Char)
  | [] => if need.isEmpty then some [] else none
  | c :: t =>
    if Js.startsWithL need (c :: t) then some ((c :: t).drop need.length)
    else findAfter need t

/-- Ordered occurrence of all segments within one line. -/
def segsMatch : List String → List Char → Bool
  | [], _ => true
  | seg :: rest, line =>
    match findAfter seg.toList line with
    | some r => segsMatch rest r
    | none => false

/-- Split on line terminators (the characters the JS dot does not match). -/
def splitLinesL : List Char → List (List Char)
  | [] => [[]]
  | c :: t =>
    let r := splitLinesL t
    if c = '\n' || c = '\r' then [] :: r
    else
      match r with
      | [] => [[c]]
      | h :: rest => (c :: h) :: rest

/-- RegExp.prototype.test of one decomposed pattern against a string. -/
def patternTest (p : List String) (s : String) : Bool :=
  (splitLinesL s.toList).any (fun line => segsMatch p line)

/-- nonInvoicePatterns.some(p => p.test(subjectLower) || p.test(bodyPreview)). -/
def nonInvoiceHit (subjectLower bodyPreview : String) : Bool :=
  nonInvoicePatterns.any (fun p => patternTest p subjectLower || patternTest p bodyPreview)

/-- ASCII letter test (character class A-Z with the i flag). -/
def isLetterC (c : Char) : Bool :=
  ('a' ≤ c && c ≤ 'z') || ('A' ≤ c && c ≤ 'Z')

/-- Character class A-Z0-9 with the i flag. -/
def isAlnumC (c : Char) : Bool := isLetterC c || Js.isDigit c

/-- Attempt of the regex branch [A-Z0-9]+[-_][0-9]+ at the current position
(greedy runs; the character classes are disjoint from the separator, so
backtracking cannot extend a failed attempt). -/
def fnBranch1 (l : List Char) : Option (List Char) :=
  let p := l.span isAlnumC
  if p.1.isEmpty then none
  else
    match p.2 with
    | c :: r2 =>
      if c = '-' || c = '_' then
        let ds := (r2.span Js.isDigit).1
        if ds.isEmpty then none else some (p.1 ++ c :: ds)
      else none
    | [] => none

/-- Attempt of the regex branch [A-Z]+[_-]?[0-9] repeated at least four
times, at the current position. -/
def fnBranch2 (l : List Char) : Option (List Char) :=
  let p := l.span isLetterC
  if p.1.isEmpty then none
  else
    let sepRest : List Char × List Char :=
      match p.2 with
      | c :: r => if c = '-' || c = '_' then ([c], r) else ([], p.2)
      | [] => ([], p.2)
    let ds := (sepRest.2.span Js.isDigit).1
    if 4 ≤ ds.length then some (p.1 ++ sepRest.1 ++ ds) else none

/-- Attempt of the regex branch [0-9] repeated at least five times, at the
current position. -/
def fnBranch3 (l : List Char) : Option (List Char) :=
  let ds := (l.span Js.isDigit).1
  if 5 ≤ ds.length then some ds else none

/-- String.prototype.match against the filename pattern of 01_Main.js line
340, returning the first (leftmost, alternatives in order) match. -/
def scanFilenameMatch : List Char → Option (List Char)
  | [] => none
  | c :: t =>
    match fnBranch1 (c :: t) with
    | some m => some m
    | none =>
      match fnBranch2 (c :: t) with
      | some m => some m
      | none =>
        match fnBranch3 (c :: t) with
        | some m => some m
        | none => scanFilenameMatch t

/-- replace(/[-_]/g, "") on the matched text. -/
def stripDashes (l : List Char) : List Char :=
  l.filter (fun c => !(c = '-' || c = '_'))

/-- replace(/^[A-Z]+/i, "") on the matched text. -/
def stripLeadLetters (l : List Char) : List Char := l.dropWhile isLetterC

/-- The early filename-based duplicate probe of processMessage (01_Main.js
lines 337-354): extract a potential invoice number from the attachment name
and ask the ledger whether it already exists. -/
def dupByFilename (attName : String) (sheet : List SRow) : Bool :=
  match scanFilenameMatch attName.toList with
  | some m =>
    let potential := stripLeadLetters (stripDashes m)
    !potential.isEmpty && 3 ≤ potential.length &&
      Sheets05.invoiceExists (some (String.mk potential)) none none sheet
  | none => false

/-- Common registration tail of processMessage (01_Main.js lines 528-595):
re-check minimal identity, run the definitive duplicate check, then append
the ledger row.  Returns the registered record and its file URL, or none
when no row is appended. -/
def registerStep (env : Env) (d : InvoiceData) (file : Option String) :
    Option (InvoiceData × String) :=
  if !Js.truthyS d.proveedor && !Js.truthyS d.numeroFactura then none
  else if Sheets05.invoiceExists d.numeroFactura d.proveedor
      (some (file.getD "")) env.sheet then none
  else some (d, file.getD "")

/-- The PDF-attachment filter of processMessage (01_Main.js lines 304-308). -/
def pdfAttachmentsOf (msg : Msg) : List Att :=
  msg.attachments.filter (fun a =>
    a.contentType = "application/pdf" || Js.endsWith (Js.lower a.name) ".pdf")

/-- emailContent of the no-attachment branch:
msgData.body || msgData.htmlBody || msgData.subject || "". -/
def emailContentOf (msg : Msg) : String :=
  Js.orS msg.body (Js.orS msg.htmlBody msg.subject)

/-- processMessage (01_Main.js lines 269-617).  The function returns the
record that gets appended to the ledger together with its file URL, or none
when the message is rejected, skipped, a duplicate, or an error is thrown
(thrown errors never append a row, so they are collapsed into none). -/
def processMessage (msg : Msg) (env : Env) : Option (InvoiceData × String) :=
  if empresasHitStr (Js.lower (msg.subject ++ " " ++ msg.body)) then none
  else if !msg.attachments.isEmpty then
    match pdfAttachmentsOf msg with
    | [] => none
    | attachment :: _ =>
      if empresasHitStr (Js.lower attachment.name) then none
      else if dupByFilename attachment.name env.sheet then none
      else
        match VertexAI.extractInvoiceData env.aiRaw with
        | none => none
        | some d =>
          if d.esFactura = some false then none
          else registerStep env d (some env.fileUrlAtt)
  else
    if empresasHitStr (Js.lower (emailContentOf msg)) then none
    else if nonInvoiceHit (Js.lower msg.subject)
              (Js.lower (Js.substringTo (emailContentOf msg) 500)) then none
    else
      match VertexAI.extractInvoiceData env.aiRaw with
      | none => none
      | some d =>
        if d.esFactura != some false && Js.truthyS d.proveedor &&
           Js.trim (d.proveedor.getD "") != "" &&
           (Js.truthyS d.numeroFactura || d.importeTotal.truthy)
        then registerStep env d (some env.fileUrlPdf)
        else none

end Main01

namespace Main01

/-- Math.ceil(a / b) for natural numbers (b positive in every use site;
division by zero yields 0, matching the empty-grouping path where the source
iterates over no months at all). -/
def ceilDiv (a b : ℕ) : ℕ := (a + b - 1) / b

/-- Number of candidate threads of a month grouping (threads.length in the
source; every selectable thread belongs to exactly one month group). -/
def totalCount {α : Type} (grouped : List (String × List α)) : ℕ :=
  (grouped.map (fun g => g.2.length)).sum

/-- maxThreads of processInvoiceEmails:
min(threads.length, CONFIG.MAX_THREADS_PER_RUN). -/
def maxThreadsFor {α : Type} (cap : ℕ) (grouped : List (String × List α)) : ℕ :=
  min (totalCount grouped) cap

/-- threadsPerMonth of processInvoiceEmails:
Math.ceil(maxThreads / months.length). -/
def quota {α : Type} (cap : ℕ) (grouped : List (String × List α)) : ℕ :=
  ceilDiv (maxThreadsFor cap grouped) grouped.length

/-- The initial balanced pass (01_Main.js lines 57-61): take up to
threadsPerMonth threads from each month, months in sorted key order. -/
def phase1 {α : Type} (cap : ℕ) (grouped : List (String × List α)) : List α :=
  (grouped.map (fun g => g.2.take (quota cap grouped))).flatten

/-- The per-run thread selection of processInvoiceEmails (01_Main.js lines
51-74).  The input is the month grouping of the candidate threads with the
month keys already sorted (the source sorts Object.keys).  After the initial
per-month pass, any shortfall is filled from the concatenation of the
months' remainders, in sorted month order, up to maxThreads. -/
def balanceThreads {α : Type} (cap : ℕ) (grouped : List (String × List α)) :
    List α :=
  if (phase1 cap grouped).length < maxThreadsFor cap grouped then
    phase1 cap grouped ++
      ((grouped.map (fun g => g.2.drop (quota cap grouped))).flatten).take
        (maxThreadsFor cap grouped - (phase1 cap grouped).length)
  else phase1 cap grouped

end Main01

namespace Part006

/-- Error-message classification of the circuit breaker
(src/unnamed/part_006 lines 734-738). -/
def includesTimeout (msg : String) : Bool :=
  Js.includes msg "timeout" || Js.includes msg "Timeout" ||
    Js.includes msg "took too long"

/-- Outcome of one processThread call as seen by the run loop: either a
normal result record with its processing duration, or a thrown error with
its message and the duration spent before throwing. -/
inductive ThreadOut where
  | ok (processed created skipped : ℕ) (dur : ℤ)
  | err (msg : String) (dur : ℤ)
deriving DecidableEq, Repr

/-- State of the run loop of processInvoiceEmails (src/unnamed/part_006
lines 658-775): elapsed wall time, the consecutive-timeout counter, the
result counters, the indices of the threads actually handed to
processThread, and whether the execution-time guard fired. -/
structure RunState where
  elapsed : ℤ := 0
  consecutiveTimeouts : ℕ := 0
  processed : ℕ := 0
  created : ℕ := 0
  skipped : ℕ := 0
  errors : ℕ := 0
  attempted : List ℕ := []
  timeLimitReached : Bool := false
deriving DecidableEq, Repr

/-- The inner for-loop over one batch (src/unnamed/part_006 lines 694-769).
The circuit-breaker break (line 756) exits this loop only; the returned
state is handed back to the outer batch loop unchanged. -/
def runBatch : RunState → List (ℕ × ThreadOut) → RunState
  | st, [] => st
  | st, (idx, t) :: rest =>
    if CONFIG.MAX_EXECUTION_TIME_MS < st.elapsed then
      { st with timeLimitReached := true }
    else
      match t with
      | .ok p c s d =>
        let st1 := { st with
          attempted := st.attempted ++ [idx],
          processed := st.processed + p,
          created := st.created + c,
          skipped := st.skipped + s,
          elapsed := st.elapsed + d,
          consecutiveTimeouts :=
            if 0 < p || 0 < c then 0 else st.consecutiveTimeouts }
        runBatch st1 rest
      | .err m d =>
        let st1 := { st with
          attempted := st.attempted ++ [idx],
          errors := st.errors + 1,
          elapsed := st.elapsed + d }
        if includesTimeout m then
          let st2 := { st1 with consecutiveTimeouts := st1.consecutiveTimeouts + 1 }
          if 2 ≤ st2.consecutiveTimeouts then st2
          else runBatch st2 rest
        else runBatch { st1 with consecutiveTimeouts := 0 } rest

/-- The outer batch loop (src/unnamed/part_006 lines 666-775): a time check
before each batch, the inner loop, and the 100 ms inter-batch pause when
more threads remain. -/
def runBatches (total : ℕ) : RunState → List (ℕ × List (ℕ × ThreadOut)) → RunState
  | st, [] => st
  | st, (i, b) :: rest =>
    if CONFIG.MAX_EXECUTION_TIME_MS < st.elapsed then
      { st with timeLimitReached := true }
    else
      let st1 := runBatch st b
      let st2 :=
        if i + CONFIG.BATCH_SIZE < total then { st1 with elapsed := st1.elapsed + 100 }
        else st1
      runBatches total st2 rest

/-- Chunk the indexed thread list into batches of BATCH_SIZE, each tagged
with its starting index (the loop variable i of the source). -/
def chunked (threads : List ThreadOut) : List (ℕ × List (ℕ × ThreadOut)) :=
  (List.range ((threads.length + CONFIG.BATCH_SIZE - 1) / CONFIG.BATCH_SIZE)).map
    (fun k =>
      (CONFIG.BATCH_SIZE * k,
        ((threads.drop (CONFIG.BATCH_SIZE * k)).take CONFIG.BATCH_SIZE).enum.map
          (fun p => (CONFIG.BATCH_SIZE * k + p.1, p.2))))

/-- The whole run loop over a given sequence of per-thread outcomes. -/
def processRun (threads : List ThreadOut) : RunState :=
  runBatches threads.length {} (chunked threads)

end Part006

section Claims

/-- Record used by the C1 witness evaluation below. -/
def recVat : InvoiceData := { iva := .str "163,38" }

/-- C1 (amended).  Numeric normalization of the three monetary fields: a
string field has its first comma replaced by a decimal point and is parsed
as a decimal; the field becomes null when the parse yields not-a-number OR
when the parsed value is zero (the source uses parseFloat(x) || null, whose
|| also sends 0 to null); a nonzero parsed value is kept; already-numeric
and null values pass through unchanged; the locale example "824,68"
normalizes to the decimal value 824.68. -/
theorem C1_numeric_normalization (r : InvoiceData) (s : String) (q : ℚ) :
    (Js.parseFloatJS (Js.replaceComma s) = none →
      VertexAI.normalizeAmount (.str s) = .null) ∧
    (Js.parseFloatJS (Js.replaceComma s) = some q → q ≠ 0 →
      VertexAI.normalizeAmount (.str s) = .num q) ∧
    (Js.parseFloatJS (Js.replaceComma s) = some 0 →
      VertexAI.normalizeAmount (.str s) = .null) ∧
    (∀ q' : ℚ, VertexAI.normalizeAmount (.num q') = .num q') ∧
    VertexAI.normalizeAmount .null = .null ∧
    (VertexAI.normalizeRec r).importeSinIVA = VertexAI.normalizeAmount r.importeSinIVA ∧
    (VertexAI.normalizeRec r).iva = VertexAI.normalizeAmount r.iva ∧
    (VertexAI.normalizeRec r).importeTotal = VertexAI.normalizeAmount r.importeTotal ∧
    VertexAI.normalizeAmount (.str "824,68") = .num (mkRat 82468 100) ∧
    (mkRat 82468 100 : ℚ) = 824.68 := by
  refine ⟨fun h => ?_, fun h hq => ?_, fun h => ?_, fun q' => rfl, rfl, rfl, rfl, rfl,
    by decide, by rw [Rat.mkRat_eq_div]; norm_num⟩
  · simp [VertexAI.normalizeAmount, h]
  · simp [VertexAI.normalizeAmount, h, hq]
  · simp [VertexAI.normalizeAmount, h]

/-- Witness for C1: the theorem applied at the concrete record field
"163,38", which normalizes to 163.38. -/
theorem C1_numeric_normalization_witness :
    VertexAI.normalizeAmount (.str "163,38") = .num (mkRat 16338 100) :=
  (C1_numeric_normalization recVat "163,38" (mkRat 16338 100)).2.1
    (by decide) (by decide)

/-- Counterexample for C1 as frozen: for the string "0" the parse does NOT
yield not-a-number (it yields the number 0), yet the normalizer sets the
field to null instead of keeping the parsed value, so a genuine zero amount
is erased to "unknown". -/
theorem C1_counterexample :
    Js.parseFloatJS (Js.replaceComma "0") = some 0 ∧
    (VertexAI.normalizeRec { importeTotal := JVal.str "0" }).importeTotal = JVal.null ∧
    JVal.null ≠ JVal.num 0 := by decide

/-- The 11-thread run used to exhibit the circuit-breaker scope bug: the
first two threads throw timeout-classified errors, the remaining nine
threads of batch 1 and the single thread of batch 2 succeed. -/
def exThreads : List Part006.ThreadOut :=
  [.err "Invoice processing timeout after 50000ms" 1000,
   .err "Invoice processing timeout after 50000ms" 1000,
   .ok 1 0 1 1000, .ok 1 0 1 1000, .ok 1 0 1 1000, .ok 1 0 1 1000,
   .ok 1 0 1 1000, .ok 1 0 1 1000, .ok 1 0 1 1000, .ok 1 0 1 1000,
   .ok 1 1 0 1000]

/-- C2 (code bug).  With two consecutive timeout-classified thread failures
at the start of batch 1, the run loop model still hands thread index 10 —
the first thread of batch 2 — to processThread: the circuit-breaker break in
the source exits only the inner per-batch loop, so the outer loop proceeds
to the next batch, contradicting both the spec and the source's own comment
"Exit the processing loop".  The attempted list [0, 1, 10] shows batch 1
cut short and batch 2 nevertheless processed. -/
theorem C2_circuit_breaker_divergence :
    Part006.includesTimeout "Invoice processing timeout after 50000ms" = true ∧
    (Part006.processRun exThreads).attempted = [0, 1, 10] ∧
    CONFIG.BATCH_SIZE ≤ 10 ∧ 10 ∈ (Part006.processRun exThreads).attempted := by
  decide

end Claims

section Claims2

/-- Message used for C4: no attachments; the body mentions an issuing-entity
alias only incidentally (sender signature), which trips the pre-AI early
rejection. -/
def msgC4 : Msg :=
  { subject := "Factura 10983",
    body := "Adjunto la factura de septiembre. Enviado desde mi cuenta de intelectium.com" }

/-- Record used for C4: a perfectly well-formed received invoice that the
full validator accepts. -/
def recC4 : InvoiceData :=
  { esFactura := some true, proveedor := some "Carles Lopez Garcia",
    numeroFactura := some "10983", concepto := some "servicios informaticos",
    importeSinIVA := .num 778, iva := .num (mkRat 16338 100),
    importeTotal := .num (mkRat 82468 100) }

/-- C4 (code bug).  The pre-AI early-rejection filter is not conservative:
a message whose subject+body merely mentions an issuing-entity alias is
rejected by the early filter (processMessage returns null before any AI
call), although the full validator accepts the record extracted from it —
here the environment is set so extraction would return recC4, which
isValidInvoice accepts, yet no record is ever registered.  The later
revision of the pipeline removed this check precisely because of such false
positives. -/
theorem C4_early_rejection_divergence :
    Main01.empresasHitStr (Js.lower (msgC4.subject ++ " " ++ msgC4.body)) = true ∧
    VertexAI.isValidInvoice recC4 = true ∧
    Main01.processMessage msgC4
      { aiRaw := some recC4, fileUrlPdf := "http://p" } = none := by
  decide

/-- Record used for C5: passes rules 1-3, has an empty invoice number and a
nonzero VAT amount, but its concept contains a marketing keyword and its
total amount is null. -/
def recC5 : InvoiceData :=
  { esFactura := some true, proveedor := some "acme", numeroFactura := some "",
    concepto := some "suscripcion newsletter", iva := .num 5,
    importeSinIVA := .null, importeTotal := .null }

/-- Counterexample for C5 as frozen: recC5 is not rejected by rules 1-3,
its invoice number is empty while a monetary field (vatAmount) is nonzero,
so the claim demands acceptance; the validator nevertheless rejects it,
because the marketing-keyword rule still fires after the amount check
(concept contains a marketing keyword, no invoice number, total amount
null). -/
theorem C5_counterexample :
    recC5.esFactura ≠ some false ∧
    VertexAI.empresasHit (Js.lower (recC5.proveedor.getD "")) = false ∧
    VertexAI.empresasHit (Js.lower (recC5.concepto.getD "")) = false ∧
    Js.truthyS recC5.proveedor = true ∧
    VertexAI.hasInvoiceNumber recC5 = false ∧
    VertexAI.hasAnyAmount recC5 = true ∧
    VertexAI.isValidInvoice recC5 = false := by decide

/-- C5 (amended).  For a record not rejected by rules 1-3 and with an empty
(blank) invoice number: if all three monetary fields are null-or-zero the
validator rejects; if some monetary field is nonzero, the validator accepts
if and only if the marketing rule does not fire, i.e. unless provider or
concept contains a marketing keyword, the invoice number is falsy, and the
total amount is null or zero. -/
theorem C5_validator_rule4 (d : InvoiceData)
    (h1 : d.esFactura ≠ some false)
    (h2 : VertexAI.empresasHit (Js.lower (d.proveedor.getD "")) = false)
    (h3 : VertexAI.empresasHit (Js.lower (d.concepto.getD "")) = false)
    (h4 : Js.truthyS d.proveedor = true ∨ Js.truthyS d.numeroFactura = true)
    (h5 : VertexAI.hasInvoiceNumber d = false) :
    (VertexAI.hasAnyAmount d = false → VertexAI.isValidInvoice d = false) ∧
    (VertexAI.hasAnyAmount d = true →
      (VertexAI.isValidInvoice d = true ↔
        ¬(VertexAI.marketingHit d = true ∧ Js.truthyS d.numeroFactura = false ∧
            (d.importeTotal = .null ∨ d.importeTotal = .num 0)))) := by
  have h4b : (!Js.truthyS d.proveedor && !Js.truthyS d.numeroFactura) = false := by
    rcases h4 with h | h <;> simp [h]
  constructor
  · intro hA
    simp [VertexAI.isValidInvoice, h1, h2, h3, h4b, h5, hA]
  · intro hA
    constructor
    · intro hV hC
      rcases hC with ⟨hm, hn, ht⟩
      simp [VertexAI.isValidInvoice, h1, h2, h3, h4b, h5, hA, hm, hn, ht] at hV
    · intro hC
      by_cases hm : VertexAI.marketingHit d = true
      · by_cases hn : Js.truthyS d.numeroFactura = true
        · simp [VertexAI.isValidInvoice, h1, h2, h3, h4b, h5, hA, hm, hn]
        · have hn' : Js.truthyS d.numeroFactura = false := by
            cases hx : Js.truthyS d.numeroFactura
            · rfl
            · exact absurd hx hn
          have hp : Js.truthyS d.proveedor = true := by
            rcases h4 with h | h
            · exact h
            · rw [hn'] at h; cases h
          have ht : ¬(d.importeTotal = .null ∨ d.importeTotal = .num 0) := by
            intro ht
            exact hC ⟨hm, hn', ht⟩
          simp [VertexAI.isValidInvoice, h1, h2, h3, h4b, h5, hA, hm, hn', hp, ht]
      · have hm' : VertexAI.marketingHit d = false := by
          cases hx : VertexAI.marketingHit d
          · rfl
          · exact absurd hx hm
        simp [VertexAI.isValidInvoice, h1, h2, h3, h4b, h5, hA, hm']

/-- Record used by the C5 witness: same shape as recC5 but with a neutral
concept, so the marketing rule does not fire and the validator accepts. -/
def recC5w : InvoiceData :=
  { esFactura := some true, proveedor := some "acme", numeroFactura := some "",
    concepto := some "cloud services", iva := .num 5,
    importeSinIVA := .null, importeTotal := .null }

/-- Witness for C5: the amended theorem applied at recC5w, discharging all
hypotheses by evaluation; the validator indeed accepts it. -/
theorem C5_validator_rule4_witness : VertexAI.isValidInvoice recC5w = true := by
  have h := (C5_validator_rule4 recC5w (by decide) (by decide) (by decide)
    (Or.inl (by decide)) (by decide)).2 (by decide)
  exact h.2 (by decide)

end Claims2

section Claims3

/-- The month grouping used against C6: three months with 17 candidate
threads each, 51 candidates in total, against the hard cap of 50. -/
def grouped51 : List (String × List ℕ) :=
  [("2025-10", List.range 17), ("2025-11", List.range 17), ("2025-12", List.range 17)]

/-- Counterexample for C6 as frozen: with 51 candidates spread over three
months, the per-month quota is ceil(50/3) = 17, the initial pass already
selects all 51 threads, and the run processes 51 threads — exceeding the
hard per-run cap MAX_THREADS_PER_RUN = 50 that the claim says is never
exceeded. -/
theorem C6_counterexample :
    Main01.totalCount grouped51 = 51 ∧
    Main01.quota CONFIG.MAX_THREADS_PER_RUN grouped51 = 17 ∧
    (Main01.balanceThreads CONFIG.MAX_THREADS_PER_RUN grouped51).length = 51 ∧
    CONFIG.MAX_THREADS_PER_RUN < 51 := by decide

/-- ceilDiv is monotone in the numerator. -/
theorem ceilDiv_mono {a b k : ℕ} (h : a ≤ b) :
    Main01.ceilDiv a k ≤ Main01.ceilDiv b k :=
  Nat.div_le_div_right (by omega)

/-- The length of the initial balanced pass is the sum of the per-month
takes, which is at most monthCount * quota. -/
theorem phase1_length_le {α : Type} (cap : ℕ) (grouped : List (String × List α)) :
    (Main01.phase1 cap grouped).length ≤
      grouped.length * Main01.quota cap grouped := by
  have h1 : (Main01.phase1 cap grouped).length =
      ((grouped.map (fun g => g.2.take (Main01.quota cap grouped))).map
        List.length).sum := by
    simp [Main01.phase1]
  rw [h1]
  have h2 : ∀ x ∈ (grouped.map (fun g => g.2.take (Main01.quota cap grouped))).map
      List.length, x ≤ Main01.quota cap grouped := by
    intro x hx
    simp only [List.mem_map] at hx
    obtain ⟨l, ⟨g, _, rfl⟩, rfl⟩ := hx
    simp [List.length_take]
  calc ((grouped.map (fun g => g.2.take (Main01.quota cap grouped))).map
          List.length).sum
      ≤ ((grouped.map (fun g => g.2.take (Main01.quota cap grouped))).map
          List.length).length * Main01.quota cap grouped := by
        have := List.sum_le_card_nsmul
          ((grouped.map (fun g => g.2.take (Main01.quota cap grouped))).map
            List.length) (Main01.quota cap grouped) h2
        simpa [smul_eq_mul] using this
    _ = grouped.length * Main01.quota cap grouped := by simp

/-- C6 (amended).  Balanced batching: each month contributes at most
ceil(maxThreadsPerRun / monthCount) threads to the initial pass; any
shortfall is filled from the months' remainders in sorted month order (the
definition of balanceThreads); the total selected is bounded by
min(candidateCount, maxThreadsPerRun) + monthCount - 1 — it can exceed the
hard cap by up to monthCount - 1 — and whenever the initial pass does not
overshoot maxThreads, the hard cap maxThreadsPerRun is respected. -/
theorem C6_balanced_batching {α : Type} (cap : ℕ)
    (grouped : List (String × List α)) :
    (∀ g ∈ grouped, (g.2.take (Main01.quota cap grouped)).length ≤
      Main01.ceilDiv cap grouped.length) ∧
    (Main01.balanceThreads cap grouped).length ≤
      Main01.maxThreadsFor cap grouped + (grouped.length - 1) ∧
    ((Main01.phase1 cap grouped).length ≤ Main01.maxThreadsFor cap grouped →
      (Main01.balanceThreads cap grouped).length ≤ cap) := by
  have hq : Main01.quota cap grouped ≤ Main01.ceilDiv cap grouped.length :=
    ceilDiv_mono (min_le_right _ _)
  have hmaxcap : Main01.maxThreadsFor cap grouped ≤ cap := min_le_right _ _
  refine ⟨?_, ?_, ?_⟩
  · intro g _
    calc (g.2.take (Main01.quota cap grouped)).length
        ≤ Main01.quota cap grouped := by simp [List.length_take]
      _ ≤ Main01.ceilDiv cap grouped.length := hq
  · by_cases hk : grouped.length = 0
    · have hempty : grouped = [] := List.length_eq_zero.mp hk
      subst hempty
      simp [Main01.balanceThreads, Main01.phase1, Main01.maxThreadsFor,
        Main01.totalCount]
    · have hk1 : 1 ≤ grouped.length := Nat.one_le_iff_ne_zero.mpr hk
      have hkq : grouped.length * Main01.quota cap grouped ≤
          Main01.maxThreadsFor cap grouped + (grouped.length - 1) := by
        have h := Nat.div_mul_le_self
          (Main01.maxThreadsFor cap grouped + grouped.length - 1) grouped.length
        have h2 : grouped.length * Main01.quota cap grouped =
            (Main01.maxThreadsFor cap grouped + grouped.length - 1) /
              grouped.length * grouped.length := by
          unfold Main01.quota Main01.ceilDiv
          ring
        rw [h2]
        omega
      have hp := phase1_length_le cap grouped
      unfold Main01.balanceThreads
      split
      · simp only [List.length_append, List.length_take]
        omega
      · omega
  · intro hle
    unfold Main01.balanceThreads
    split
    · simp only [List.length_append, List.length_take]
      omega
    · omega

/-- Small month grouping for the C6 witness evaluation. -/
def groupedW : List (String × List ℕ) :=
  [("2025-10", List.range 3), ("2025-11", List.range 2)]

/-- Witness for C6: the amended theorem applied at the concrete grouping of
5 candidates over two months, discharging the membership and the
no-overshoot hypothesis by evaluation. -/
theorem C6_balanced_batching_witness :
    (("2025-10", List.range 3).2.take
        (Main01.quota CONFIG.MAX_THREADS_PER_RUN groupedW)).length ≤
      Main01.ceilDiv CONFIG.MAX_THREADS_PER_RUN groupedW.length ∧
    (Main01.balanceThreads CONFIG.MAX_THREADS_PER_RUN groupedW).length ≤
      CONFIG.MAX_THREADS_PER_RUN := by
  refine ⟨(C6_balanced_batching CONFIG.MAX_THREADS_PER_RUN groupedW).1
      ("2025-10", List.range 3) (by decide), ?_⟩
  exact (C6_balanced_batching CONFIG.MAX_THREADS_PER_RUN groupedW).2.2 (by decide)

end Claims3

section Claims4

/-- The call window produced by 61 recordCall invocations at time 0. -/
def calls61 : List ℤ := (List.range 61).foldl (fun s _ => VertexAI.recordCall 0 s) []

/-- Counterexample for C7 as frozen: recordCall is unconditional, so a
sequence of 61 recordCall invocations followed by an admission check leaves
61 timestamps in the trailing 60-second window after pruning — exceeding
maxCallsPerMinute = 60. -/
theorem C7_counterexample :
    (VertexAI.pruneCalls 0 calls61).length = 61 ∧
    CONFIG.RATE_LIMIT_CALLS_PER_MINUTE < (VertexAI.pruneCalls 0 calls61).length ∧
    VertexAI.canCall CONFIG.RATE_LIMIT_CALLS_PER_MINUTE 0 calls61 = false := by
  decide

/-- A run of n recordCall invocations at one instant appends n copies of
that timestamp. -/
theorem recordCall_run (now : ℤ) (l : List ℤ) (n : ℕ) :
    (List.range n).foldl (fun s _ => VertexAI.recordCall now s) l =
      l ++ List.replicate n now := by
  induction n generalizing l with
  | zero => simp
  | succ n ih =>
    rw [List.range_succ, List.foldl_append, ih]
    simp [VertexAI.recordCall, List.replicate_succ', List.append_assoc]

/-- C7 (amended).  The pruning on an admission check keeps exactly the
timestamps newer than 60 seconds; canAdmit returns true iff fewer than
maxCallsPerMinute timestamps remain after pruning; but the size of the
pruned window is NOT bounded by maxCallsPerMinute — recordCall is
unconditional, and n recordCall invocations within the window leave n
timestamps after pruning, for every n. -/
theorem C7_rate_window (maxCalls : ℕ) (now : ℤ) (calls : List ℤ) (t : ℤ) :
    (t ∈ VertexAI.pruneCalls now calls ↔ t ∈ calls ∧ now - 60000 < t) ∧
    (VertexAI.canCall maxCalls now calls = true ↔
      (VertexAI.pruneCalls now calls).length < maxCalls) ∧
    (∀ n : ℕ,
      (VertexAI.pruneCalls now
        ((List.range n).foldl (fun s _ => VertexAI.recordCall now s) [])).length = n) := by
  refine ⟨?_, ?_, ?_⟩
  · simp [VertexAI.pruneCalls, List.mem_filter]
  · simp [VertexAI.canCall]
  · intro n
    rw [recordCall_run]
    simp [VertexAI.pruneCalls, List.filter_replicate]

/-- C9 (confirmed).  The cached duplicate gate fails open and short-circuits
on missing identity: if reading the ledger throws, invoiceExists returns
false (the try/catch converts the error, so nothing is raised to the
caller — the Lean model is a total function into Bool); and when both the
invoice number and the provider are falsy it returns false for every sheet
state and every file URL, matching file URL included, without consulting the
ledger (the result does not depend on the sheet argument at all). -/
theorem C9_duplicate_gate_fails_open (num prov url : Option String)
    (sheet : Except Unit (List SRow)) :
    Part004.invoiceExists num prov url (.error ()) = false ∧
    (Js.truthyS num = false → Js.truthyS prov = false →
      Part004.invoiceExists num prov url sheet = false) := by
  constructor
  · by_cases h : (!Js.truthyS num && !Js.truthyS prov) = true
    · simp [Part004.invoiceExists, h]
    · have h' : (!Js.truthyS num && !Js.truthyS prov) = false := by
        cases hx : (!Js.truthyS num && !Js.truthyS prov)
        · rfl
        · exact absurd hx h
      simp [Part004.invoiceExists, h']
  · intro h1 h2
    simp [Part004.invoiceExists, h1, h2]

/-- Witness for C9: the gate applied with both identity fields empty against
a sheet containing a row whose file URL matches the probed URL — still
false — and applied against a failed sheet read with a real invoice
number — still false. -/
theorem C9_duplicate_gate_fails_open_witness :
    Part004.invoiceExists none (some "") (some "http://x")
      (.ok [{ provA := "Acme", numC := "10983", urlH := "http://x" }]) = false ∧
    Part004.invoiceExists (some "10983") (some "Acme") (some "u")
      (.error ()) = false := by
  refine ⟨(C9_duplicate_gate_fails_open none (some "") (some "http://x")
      (.ok [{ provA := "Acme", numC := "10983", urlH := "http://x" }])).2
      (by decide) (by decide),
    (C9_duplicate_gate_fails_open (some "10983") (some "Acme") (some "u")
      (.error ())).1⟩

/-- C10 (confirmed).  registerInvoice writes the number 0 into each numeric
ledger column whose record field is falsy (null, zero, or empty string), so
a ledger row cannot distinguish an unknown (null) amount from a genuine
zero: the rows written for the two records are identical. -/
theorem C10_persistence_erases_null (d : InvoiceData) (fechaStr fileUrl : String) :
    (d.importeSinIVA.truthy = false →
      (Sheets05.rowData d fechaStr fileUrl)[4]? = some (.num 0)) ∧
    (d.iva.truthy = false →
      (Sheets05.rowData d fechaStr fileUrl)[5]? = some (.num 0)) ∧
    (d.importeTotal.truthy = false →
      (Sheets05.rowData d fechaStr fileUrl)[6]? = some (.num 0)) ∧
    Sheets05.rowData { d with importeTotal := .null } fechaStr fileUrl =
      Sheets05.rowData { d with importeTotal := .num 0 } fechaStr fileUrl ∧
    JVal.null ≠ JVal.num 0 := by
  refine ⟨fun h => ?_, fun h => ?_, fun h => ?_, ?_, by decide⟩
  · simp [Sheets05.rowData, Sheets05.cellOr0, h]
  · simp [Sheets05.rowData, Sheets05.cellOr0, h]
  · simp [Sheets05.rowData, Sheets05.cellOr0, h]
  · simp [Sheets05.rowData, Sheets05.cellOr0, JVal.truthy]

/-- Witness for C10: the theorem applied to a validated record with a null
total amount — the ledger row holds the number 0 in the total column. -/
theorem C10_persistence_erases_null_witness :
    (Sheets05.rowData recC5w "2025-09-09" "http://f")[6]? = some (.num 0) :=
  (C10_persistence_erases_null recC5w "2025-09-09" "http://f").2.2.1 (by decide)

end Claims4


section Claims5

/-- Rule 3 of the validator forces rejection: with both provider and invoice
number falsy, isValidInvoice is false on every path. -/
theorem isValid_needs_identity (d : InvoiceData)
    (hp : Js.truthyS d.proveedor = false)
    (hn : Js.truthyS d.numeroFactura = false) :
    VertexAI.isValidInvoice d = false := by
  unfold VertexAI.isValidInvoice
  split_ifs <;> simp_all

/-- Rule 4 of the validator forces rejection: with a blank invoice number
and all monetary fields null-or-zero, isValidInvoice is false on every
path. -/
theorem isValid_needs_substance (d : InvoiceData)
    (hn : VertexAI.hasInvoiceNumber d = false)
    (ha : VertexAI.hasAnyAmount d = false) :
    VertexAI.isValidInvoice d = false := by
  unfold VertexAI.isValidInvoice
  split_ifs <;> simp_all

/-- Every record the validator accepts carries minimal identity (a truthy
provider or invoice number) and substance (a non-blank invoice number or a
nonzero monetary field). -/
theorem isValid_invariant (d : InvoiceData)
    (h : VertexAI.isValidInvoice d = true) :
    (Js.truthyS d.proveedor = true ∨ Js.truthyS d.numeroFactura = true) ∧
    (VertexAI.hasInvoiceNumber d = true ∨ VertexAI.hasAnyAmount d = true) := by
  constructor
  · cases hp : Js.truthyS d.proveedor with
    | true => exact Or.inl rfl
    | false =>
      cases hn : Js.truthyS d.numeroFactura with
      | true => exact Or.inr rfl
      | false => rw [isValid_needs_identity d hp hn] at h; cases h
  · cases hn : VertexAI.hasInvoiceNumber d with
    | true => exact Or.inl rfl
    | false =>
      cases ha : VertexAI.hasAnyAmount d with
      | true => exact Or.inr rfl
      | false => rw [isValid_needs_substance d hn ha] at h; cases h

/-- extractInvoiceData only returns records the validator accepted. -/
theorem extract_some_valid (raw : Option InvoiceData) (d : InvoiceData)
    (h : VertexAI.extractInvoiceData raw = some d) :
    VertexAI.isValidInvoice d = true := by
  cases raw with
  | none => simp [VertexAI.extractInvoiceData] at h
  | some r =>
    simp only [VertexAI.extractInvoiceData] at h
    split_ifs at h with hv
    exact (Option.some.inj h) ▸ hv

/-- registerStep only appends the record it was handed. -/
theorem registerStep_some (env : Env) (d : InvoiceData) (file : Option String)
    (r : InvoiceData) (u : String)
    (h : Main01.registerStep env d file = some (r, u)) : r = d := by
  unfold Main01.registerStep at h
  split_ifs at h
  cases h
  rfl

/-- C3 (amended).  Persisted-record invariant as the code actually enforces
it: every record appended to the ledger by processMessage has a truthy
provider OR a truthy invoice number (not necessarily a non-empty provider),
and a non-blank invoice number OR some nonzero monetary field (not
necessarily a non-empty total amount). -/
theorem C3_persisted_record_invariant (msg : Msg) (env : Env)
    (r : InvoiceData) (u : String)
    (h : Main01.processMessage msg env = some (r, u)) :
    (Js.truthyS r.proveedor = true ∨ Js.truthyS r.numeroFactura = true) ∧
    (VertexAI.hasInvoiceNumber r = true ∨ VertexAI.hasAnyAmount r = true) := by
  unfold Main01.processMessage at h
  split at h
  · cases h
  · split at h
    · split at h
      · cases h
      · split at h
        · cases h
        · split at h
          · cases h
          · split at h
            · cases h
            · rename_i d heq
              split at h
              · cases h
              · have hv := extract_some_valid env.aiRaw d heq
                have hr := registerStep_some env d (some env.fileUrlAtt) r u h
                subst hr
                exact isValid_invariant _ hv
    · split at h
      · cases h
      · split at h
        · cases h
        · split at h
          · cases h
          · rename_i d heq
            split at h
            · have hv := extract_some_valid env.aiRaw d heq
              have hr := registerStep_some env d (some env.fileUrlPdf) r u h
              subst hr
              exact isValid_invariant _ hv
            · cases h

end Claims5

section Claims6

/-- Record used against C3: a validated invoice with an EMPTY provider
(the AI is instructed to return "" for unknown strings), a real invoice
number, and all monetary fields null. -/
def r0 : InvoiceData :=
  { esFactura := some true, proveedor := some "", numeroFactura := some "10983",
    concepto := some "servicios", importeSinIVA := .null, iva := .null,
    importeTotal := .null }

/-- Message used against C3: a PDF-attachment invoice mail with no
issuing-entity mention and a digit-free attachment name. -/
def msgC3 : Msg :=
  { subject := "Factura 10983", body := "adjunto",
    attachments := [{ name := "factura.pdf", contentType := "application/pdf" }] }

/-- Environment used against C3: the AI returns r0 and the ledger is
empty. -/
def envC3 : Env := { aiRaw := some r0, fileUrlAtt := "http://f" }

/-- Counterexample for C3 as frozen: processMessage appends a ledger row for
the record r0 whose provider is the empty string (the attachment path only
requires provider OR invoice number), so a persisted record does NOT always
have a non-empty provider. -/
theorem C3_counterexample :
    Main01.processMessage msgC3 envC3 = some (r0, "http://f") ∧
    r0.proveedor = some "" ∧ Js.truthyS r0.proveedor = false := by decide

/-- Witness for C3: the amended invariant theorem applied at the concrete
run that registers r0, discharging the registration hypothesis by
evaluation. -/
theorem C3_persisted_record_invariant_witness :
    (Js.truthyS r0.proveedor = true ∨ Js.truthyS r0.numeroFactura = true) ∧
    (VertexAI.hasInvoiceNumber r0 = true ∨ VertexAI.hasAnyAmount r0 = true) :=
  C3_persisted_record_invariant msgC3 envC3 r0 "http://f" (by decide)

end Claims6

section Claims7

/-- With a recursion bound exceeding the remaining wait budget in
milliseconds, the wait loop always exits through one of its breaks: every
iteration that recurses first sleeps at least 1 ms of a budget that is never
allowed to go negative. -/
theorem waitAux_no_fuelOut (maxCalls : ℕ) (maxWait waitStart : ℤ) :
    ∀ (fuel : ℕ) (now : ℤ) (calls os : List ℤ),
      (maxWait - (now - waitStart)).toNat < fuel →
      (VertexAI.waitAux maxCalls maxWait waitStart fuel now calls os).fuelOut =
        false := by
  intro fuel
  induction fuel with
  | zero => intro now calls os h; exact absurd h (Nat.not_lt_zero _)
  | succ n ih =>
    intro now calls os h
    simp only [VertexAI.waitAux]
    split
    · rfl
    · split
      · rfl
      · split
        · rfl
        · rename_i hadm hlate c cs heq
          split
          · rename_i hpos
            simp only [VertexAI.consSleep]
            apply ih
            have hA2 : VertexAI.actualWait maxWait waitStart now c cs ≤
                maxWait - (now - waitStart) :=
              le_trans (min_le_left _ _) (min_le_right _ _)
            have ho : (0 : ℤ) ≤ max 0 (os.headD 0) := le_max_left _ _
            omega
          · rfl

/-- Every sleep of the wait loop happens with nonnegative elapsed wait that
has not yet exceeded the budget, lasts at least 1 ms and at most 30 s, and
fits inside the remaining budget. -/
theorem waitAux_sleep_bounds (maxCalls : ℕ) (maxWait waitStart : ℤ) :
    ∀ (fuel : ℕ) (now : ℤ) (calls os : List ℤ), waitStart ≤ now →
      ∀ e dur,
        (e, dur) ∈ (VertexAI.waitAux maxCalls maxWait waitStart fuel now calls os).sleeps →
        0 ≤ e ∧ e ≤ maxWait ∧ 1 ≤ dur ∧ dur ≤ 30000 ∧ e + dur ≤ maxWait := by
  intro fuel
  induction fuel with
  | zero => intro now calls os hsn e dur hmem; simp [VertexAI.waitAux] at hmem
  | succ n ih =>
    intro now calls os hsn e dur hmem
    simp only [VertexAI.waitAux] at hmem
    split at hmem
    · simp at hmem
    · split at hmem
      · simp at hmem
      · split at hmem
        · simp at hmem
        · rename_i hadm hlate c cs heq
          split at hmem
          · rename_i hpos
            simp only [VertexAI.consSleep, List.mem_cons] at hmem
            rcases hmem with hhead | htail
            · have hA2 : VertexAI.actualWait maxWait waitStart now c cs ≤
                  maxWait - (now - waitStart) :=
                le_trans (min_le_left _ _) (min_le_right _ _)
              have hA3 : VertexAI.actualWait maxWait waitStart now c cs ≤ 30000 :=
                min_le_right _ _
              have he : e = now - waitStart := congrArg Prod.fst hhead
              have hd : dur = VertexAI.actualWait maxWait waitStart now c cs :=
                congrArg Prod.snd hhead
              subst he
              subst hd
              omega
            · have ho : (0 : ℤ) ≤ max 0 (os.headD 0) := le_max_left _ _
              have hA1 : 0 < VertexAI.actualWait maxWait waitStart now c cs := hpos
              exact ih _ _ _ (by omega) e dur htail
          · simp at hmem

/-- C8 (confirmed).  waitIfNeeded (awaitAdmission) terminates for every rate
window state and wait budget: the structural bound of one iteration per
budget millisecond is never exhausted (fuelOut is always false), every
sleep starts with accumulated wait within maxWaitMs — so once the
accumulated wait exceeds maxWaitMs the loop only returns, it never blocks
again — each sleep fits in the remaining budget and respects the 30-second
per-iteration cap, and when the pruned window is empty while admission is
denied the loop returns immediately without any sleep. -/
theorem C8_wait_termination_fail_open (maxCalls : ℕ) (maxWait waitStart : ℤ)
    (calls os : List ℤ) (hpos : 0 < maxWait) :
    (VertexAI.waitIfNeeded maxCalls maxWait waitStart calls os).fuelOut = false ∧
    (∀ e dur,
      (e, dur) ∈ (VertexAI.waitIfNeeded maxCalls maxWait waitStart calls os).sleeps →
      0 ≤ e ∧ e ≤ maxWait ∧ 1 ≤ dur ∧ dur ≤ 30000 ∧ e + dur ≤ maxWait) ∧
    (VertexAI.pruneCalls waitStart calls = [] →
      (VertexAI.waitIfNeeded maxCalls maxWait waitStart calls os).sleeps = []) := by
  refine ⟨?_, ?_, ?_⟩
  · apply waitAux_no_fuelOut
    omega
  · exact fun e dur hmem =>
      waitAux_sleep_bounds maxCalls maxWait waitStart _ waitStart calls os
        le_rfl e dur hmem
  · intro hempty
    unfold VertexAI.waitIfNeeded
    simp only [VertexAI.waitAux, hempty]
    split
    · rfl
    · split <;> rfl

/-- Witness for C8: the theorem applied to the concrete overfull window of
61 fresh calls with the configured 10-second budget — the loop terminates
(fuelOut false) and its single sleep, starting at elapsed 0 with duration
10000 ms, satisfies all the bounds. -/
theorem C8_wait_termination_fail_open_witness :
    (VertexAI.waitIfNeeded 60 CONFIG.MAX_RATE_LIMITER_WAIT_MS 0 calls61 []).fuelOut
      = false ∧
    (0 ≤ (0 : ℤ) ∧ (0 : ℤ) ≤ CONFIG.MAX_RATE_LIMITER_WAIT_MS ∧ 1 ≤ (10000 : ℤ) ∧
      (10000 : ℤ) ≤ 30000 ∧ (0 : ℤ) + 10000 ≤ CONFIG.MAX_RATE_LIMITER_WAIT_MS) :=
  ⟨(C8_wait_termination_fail_open 60 CONFIG.MAX_RATE_LIMITER_WAIT_MS 0 calls61 []
      (by decide)).1,
   (C8_wait_termination_fail_open 60 CONFIG.MAX_RATE_LIMITER_WAIT_MS 0 calls61 []
      (by decide)).2.1 0 10000 (by decide)⟩

end Claims7
